import Mathlib

/-!
# Verification of the DAT-Bolt data-migration pipeline

A shallow embedding of `migration/migrate-data.js`: JavaScript values,
per-table row transformers, the batch writer, the per-table migration
loop, the user-synthesis step, the validation pass and the run
orchestrator, together with theorems settling the frozen claims about
the pipeline.
-/

/-- A JavaScript/JSON value as it flows through the migration script.
Structured (object) values are modelled as key/value cons-chains so that
decidable equality is derivable; the pipeline never looks inside them. -/
inductive JsValue where
  | undefined
  | null
  | bool (b : Bool)
  | num (n : Int)
  | str (s : String)
  | emptyObj
  | objCons (key : String) (value : JsValue) (rest : JsValue)
deriving DecidableEq, Repr

/-- JavaScript truthiness: `undefined`, `null`, `false`, `0` and `""` are
falsy; every other value (including any object) is truthy. -/
def JsValue.truthy : JsValue → Bool
  | .undefined => false
  | .null => false
  | .bool b => b
  | .num n => n != 0
  | .str s => s != ""
  | .emptyObj => true
  | .objCons _ _ _ => true

/-- JavaScript `a || b`. -/
def jsOr (a b : JsValue) : JsValue :=
  if a.truthy then a else b

/-- The batch writer's JSON test, `typeof v === 'object' && v !== null`. -/
def JsValue.isStructured : JsValue → Bool
  | .emptyObj => true
  | .objCons _ _ _ => true
  | _ => false

/-- A source or target row: an ordered mapping from field names to values. -/
def Row : Type := List (String × JsValue)

instance : DecidableEq Row := inferInstanceAs (DecidableEq (List (String × JsValue)))
instance : Inhabited Row := ⟨([] : List (String × JsValue))⟩

/-- JavaScript property access `row.field`: the first binding of the name,
`undefined` when the field is absent. -/
def Row.get : Row → String → JsValue
  | [], _ => .undefined
  | (k, v) :: rest, name => if k = name then v else Row.get rest name

/-- The `AuditReports` transform (migrate-data.js lines 79–91).  The call
`Math.floor(Math.random() * 10000)` is embedded as the explicit draw
`rand` supplied to the transform. -/
def auditReportsTransform (rand : Int) (row : Row) : Row :=
  [ ("Id", row.get "Id"),
    ("UserEmail", row.get "UserEmail"),
    ("GeneratedBy", jsOr (row.get "GeneratedBy") (row.get "UserEmail")),
    ("Timestamp", row.get "Timestamp"),
    ("datacenter", jsOr (row.get "datacenter") (.str "Unknown")),
    ("datahall", jsOr (row.get "datahall") (.str "Unknown")),
    ("issues_reported", jsOr (row.get "issues_reported") (.num 0)),
    ("state", jsOr (row.get "state") (.str "Healthy")),
    ("walkthrough_id", jsOr (row.get "walkthrough_id") (.num rand)),
    ("user_full_name", jsOr (row.get "user_full_name") (.str "Unknown User")),
    ("ReportData", jsOr (row.get "ReportData") .emptyObj) ]

/-- The `user_profiles` transform (lines 102–109). -/
def userProfilesTransform (row : Row) : Row :=
  [ ("user_id", row.get "user_id"),
    ("full_name", row.get "full_name"),
    ("avatar_url", row.get "avatar_url"),
    ("phone", row.get "phone"),
    ("department", jsOr (row.get "department") (.str "Data Center Operations")),
    ("updated_at", row.get "updated_at") ]

/-- The `user_activities` transform (lines 116–122). -/
def userActivitiesTransform (row : Row) : Row :=
  [ ("id", row.get "id"),
    ("user_id", row.get "user_id"),
    ("type", row.get "type"),
    ("description", row.get "description"),
    ("created_at", row.get "created_at") ]

/-- The `user_stats` transform (lines 129–135). -/
def userStatsTransform (row : Row) : Row :=
  [ ("user_id", row.get "user_id"),
    ("walkthroughs_completed", jsOr (row.get "walkthroughs_completed") (.num 0)),
    ("issues_resolved", jsOr (row.get "issues_resolved") (.num 0)),
    ("reports_generated", jsOr (row.get "reports_generated") (.num 0)),
    ("updated_at", row.get "updated_at") ]

/-- The `incidents` transform (lines 142–152). -/
def incidentsTransform (row : Row) : Row :=
  [ ("id", row.get "id"),
    ("location", row.get "location"),
    ("datahall", row.get "datahall"),
    ("description", jsOr (row.get "description") (.str "")),
    ("severity", row.get "severity"),
    ("status", jsOr (row.get "status") (.str "open")),
    ("created_at", row.get "created_at"),
    ("updated_at", row.get "updated_at"),
    ("user_id", row.get "user_id") ]

/-- The `reports` transform (lines 159–171). -/
def reportsTransform (row : Row) : Row :=
  [ ("id", row.get "id"),
    ("title", row.get "title"),
    ("generated_by", row.get "generated_by"),
    ("generated_at", row.get "generated_at"),
    ("date_range_start", row.get "date_range_start"),
    ("date_range_end", row.get "date_range_end"),
    ("datacenter", row.get "datacenter"),
    ("datahall", row.get "datahall"),
    ("status", jsOr (row.get "status") (.str "draft")),
    ("total_incidents", jsOr (row.get "total_incidents") (.num 0)),
    ("report_data", jsOr (row.get "report_data") .emptyObj) ]

/-- One entry of the `tableMigrations` configuration object.  Every
transform is given the per-row random draw; only the `AuditReports`
transform reads it.  `keyCol` is the target table's primary-key column
(from `azure-schema.sql`), used by the conflict-skip insert model. -/
structure TableConfig where
  sourceTable : String
  targetTable : String
  transform : Int → Row → Row
  columns : List String
  keyCol : String

def cfgAuditReports : TableConfig :=
  { sourceTable := "AuditReports", targetTable := "AuditReports",
    transform := auditReportsTransform,
    columns := ["Id", "UserEmail", "GeneratedBy", "Timestamp", "datacenter",
                "datahall", "issues_reported", "state", "walkthrough_id",
                "user_full_name", "ReportData"],
    keyCol := "Id" }

def cfgUserProfiles : TableConfig :=
  { sourceTable := "user_profiles", targetTable := "user_profiles",
    transform := fun _ => userProfilesTransform,
    columns := ["user_id", "full_name", "avatar_url", "phone", "department", "updated_at"],
    keyCol := "user_id" }

def cfgUserActivities : TableConfig :=
  { sourceTable := "user_activities", targetTable := "user_activities",
    transform := fun _ => userActivitiesTransform,
    columns := ["id", "user_id", "type", "description", "created_at"],
    keyCol := "id" }

def cfgUserStats : TableConfig :=
  { sourceTable := "user_stats", targetTable := "user_stats",
    transform := fun _ => userStatsTransform,
    columns := ["user_id", "walkthroughs_completed", "issues_resolved", "reports_generated", "updated_at"],
    keyCol := "user_id" }

def cfgIncidents : TableConfig :=
  { sourceTable := "incidents", targetTable := "incidents",
    transform := fun _ => incidentsTransform,
    columns := ["id", "location", "datahall", "description", "severity", "status", "created_at", "updated_at", "user_id"],
    keyCol := "id" }

def cfgReports : TableConfig :=
  { sourceTable := "reports", targetTable := "reports",
    transform := fun _ => reportsTransform,
    columns := ["id", "title", "generated_by", "generated_at", "date_range_start", "date_range_end", "datacenter", "datahall", "status", "total_incidents", "report_data"],
    keyCol := "id" }

/-- The `tableMigrations` object in object-literal (declaration) order, as iterated
by `Object.entries` in the validation pass. -/
def tableMigrationsList : List (String × TableConfig) :=
  [ ("AuditReports", cfgAuditReports),
    ("user_profiles", cfgUserProfiles),
    ("user_activities", cfgUserActivities),
    ("user_stats", cfgUserStats),
    ("incidents", cfgIncidents),
    ("reports", cfgReports) ]

/-! ## Batch writer (`insertBatch`, lines 237–277) -/

/-- A positional parameter as bound by the batch writer: a non-null
structured value is serialized to JSON text (`JSON.stringify`), every
other value is passed through unmodified. -/
inductive BindParam where
  | jsonText (v : JsValue)
  | scalar (v : JsValue)
deriving DecidableEq, Repr

instance : Inhabited BindParam := ⟨.scalar .undefined⟩

/-- The batch writer's per-value serialization step (lines 254–261). -/
def bindValue (v : JsValue) : BindParam :=
  if v.isStructured then .jsonText v else .scalar v

/-- The placeholder groups of the generated INSERT (lines 242–247): for
row index `rowIndex` and column index `colIndex` the placeholder is
`$(rowIndex * m + colIndex + 1)`.  Each inner list is one parenthesized
group of the VALUES clause, in statement order. -/
def placeholderGroups (n m : Nat) : List (List Nat) :=
  (List.range n).map (fun rowIndex =>
    (List.range m).map (fun colIndex => rowIndex * m + colIndex + 1))

/-- The rendered placeholder text of the VALUES clause (lines 242–247). -/
def placeholdersText (n m : Nat) : String :=
  String.intercalate ", " ((placeholderGroups n m).map (fun grp =>
    "(" ++ String.intercalate ", " (grp.map (fun k => "$" ++ toString k)) ++ ")"))

/-- The flattened parameter array (lines 253–262): rows in order, each
row contributing one bound value per configured column, in column order. -/
def flattenParams (data : List Row) (columns : List String) : List BindParam :=
  data.flatMap (fun row => columns.map (fun col => bindValue (row.get col)))

/-- Whether some stored row of `target` already carries key value `v` in
column `keyCol`. -/
def keyPresent (target : List Row) (keyCol : String) (v : JsValue) : Bool :=
  target.any (fun r => r.get keyCol == v)

/-- Modelled from the spec: the target store's conflict-skip semantics
(`INSERT ... ON CONFLICT DO NOTHING`; the database engine itself is not
part of the repository).  Rows of the batch are attempted in order; a row
whose key is already present — in the pre-existing table or earlier in the
same batch — is silently skipped, every other row is appended. -/
def conflictSkipInsert (keyCol : String) (target : List Row) (batch : List Row) : List Row :=
  batch.foldl (fun acc row =>
    if keyPresent acc keyCol (row.get keyCol) then acc else acc ++ [row]) target

/-- One executed INSERT statement, as shipped to the target store. -/
structure ExecutedQuery where
  table : String
  columns : List String
  groups : List (List Nat)
  params : List BindParam
deriving Repr

/-- The batch writer `insertBatch` (lines 237–277): empty input is a no-op executing no
statement; otherwise one multi-row conflict-skipping INSERT is executed.
Returns the new target table contents and the executed statement list. -/
def insertBatch (keyCol : String) (tableName : String) (data : List Row)
    (columns : List String) (target : List Row) : List Row × List ExecutedQuery :=
  if data.length = 0 then (target, [])
  else
    (conflictSkipInsert keyCol target data,
     [{ table := tableName, columns := columns,
        groups := placeholderGroups data.length columns.length,
        params := flattenParams data columns }])

/-! ## Table migration orchestrator (`migrateTable`, lines 176–235) -/

/-- The result object of one table migration: `{success: true,
recordsMigrated}` or `{success: false, error}`. -/
inductive MigResult where
  | ok (recordsMigrated : Nat)
  | err (msg : String)
deriving DecidableEq, Repr

/-- JavaScript truthiness of the result's `success` field. -/
def MigResult.success : MigResult → Bool
  | .ok _ => true
  | .err _ => false

/-- The value `recordsMigrated || 0`, as summed by the report generator. -/
def MigResult.recordsMigrated : MigResult → Nat
  | .ok n => n
  | .err _ => 0

/-- A source table as seen through the Supabase query interface: the
`count: 'exact', head: true` result (`null` when the count query yields
no usable count) and the `range(offset, offset+999)` page reads, which
either fail with an error message or return a row page. -/
structure SourceTable where
  count : Option Nat
  fetchPage : Nat → Except String (List Row)

/-- The observable outcome of one `migrateTable` call: offsets of the
page fetches attempted, lengths of the pages returned, statements
executed against the target, the target table contents afterwards, and
the returned result object. -/
structure MigrateTrace where
  fetches : List Nat
  pages : List Nat
  executed : List ExecutedQuery
  target : List Row
  result : MigResult

/-- The page size `CONFIG.batchSize` (line 24). -/
def batchSize : Nat := 1000

/-- One page of row transformation (line 212): row `i` of the page is
the `(base + i)`-th transform call of this table and consumes the
`(base + i)`-th random draw. -/
def transformPage (cfg : TableConfig) (randAt : Nat → Int) (base : Nat) (page : List Row) : List Row :=
  List.zipWith (fun i row => cfg.transform (randAt (base + i)) row) (List.range page.length) page

/-- The `while (offset < totalRecords)` loop of `migrateTable` (lines
195–226), driven by the precomputed list of offsets the loop visits
(`0, 1000, 2000, …` while below the total).  A fetch error aborts the
table with `{success: false, error}`; an empty page breaks out; otherwise
the page is transformed, written (unless in dry-run mode) and counted. -/
def migrateLoop (cfg : TableConfig) (randAt : Nat → Int) (dryRun : Bool)
    (fetchPage : Nat → Except String (List Row)) :
    List Nat → Nat → List Nat → List Nat → List ExecutedQuery → List Row → MigrateTrace
  | [], recs, fs, ps, execs, target =>
      ⟨fs, ps, execs, target, .ok recs⟩
  | off :: rest, recs, fs, ps, execs, target =>
      match fetchPage off with
      | .error e =>
          ⟨fs ++ [off], ps, execs, target,
           .err ("Failed to fetch data from " ++ cfg.sourceTable ++ ": " ++ e)⟩
      | .ok page =>
          if page.length = 0 then
            ⟨fs ++ [off], ps ++ [0], execs, target, .ok recs⟩
          else
            let transformed := transformPage cfg randAt recs page
            let (target2, newExecs) :=
              if dryRun then (target, [])
              else insertBatch cfg.keyCol cfg.targetTable transformed cfg.columns target
            migrateLoop cfg randAt dryRun fetchPage rest (recs + transformed.length)
              (fs ++ [off]) (ps ++ [page.length]) (execs ++ newExecs) target2

/-- The offsets visited by the paging loop for a given total: multiples
of the batch size strictly below the total. -/
def pageOffsets (total : Nat) : List Nat :=
  List.range' 0 ((total + (batchSize - 1)) / batchSize) batchSize

/-- The orchestrator `migrateTable` (lines 176–235).  A count of exactly `0` returns early
with a warning; a `null`/`undefined` count makes the loop condition
`offset < totalRecords` immediately false, so the loop body never runs
and the table still reports success with zero records. -/
def migrateTable (dryRun : Bool) (cfg : TableConfig) (randAt : Nat → Int)
    (src : SourceTable) (target : List Row) : MigrateTrace :=
  match src.count with
  | some 0 => ⟨[], [], [], target, .ok 0⟩
  | some n => migrateLoop cfg randAt dryRun src.fetchPage (pageOffsets n) 0 [] [] [] target
  | none => migrateLoop cfg randAt dryRun src.fetchPage (pageOffsets 0) 0 [] [] [] target

/-- A well-behaved source table over a fixed row list: the count query
reports the exact total and every page read returns the next
`batchSize`-row slice. -/
def stdSource (rows : List Row) : SourceTable :=
  { count := some rows.length,
    fetchPage := fun off => .ok ((rows.drop off).take batchSize) }

/-! ## User synthesis (`createUsersFromProfiles`, lines 279–352) -/

/-- A candidate user held in the synthesis map. -/
structure SynthUser where
  id : JsValue
  email : JsValue
  full_name : JsValue
  department : JsValue
deriving DecidableEq

/-- The placeholder email `user-${profile.user_id.slice(0, 8)}@temp.local`
(line 303); `slice` is only meaningful on string ids. -/
def sliceEmail (v : JsValue) : JsValue :=
  .str ("user-" ++ (match v with | .str s => s.take 8 | _ => "") ++ "@temp.local")

/-- The in-memory `Map`, in insertion order. -/
abbrev UserMap : Type := List (JsValue × SynthUser)

def mapHas (m : UserMap) (k : JsValue) : Bool :=
  m.any (fun p => p.1 == k)

/-- JavaScript `Map.set`: replace in place when the key exists, append
otherwise. -/
def mapSet (m : UserMap) (k : JsValue) (v : SynthUser) : UserMap :=
  if mapHas m k then m.map (fun p => if p.1 == k then (k, v) else p) else m ++ [(k, v)]

def mapValues (m : UserMap) : List SynthUser :=
  m.map (fun p => p.2)

/-- Phase 1 (lines 299–308): one candidate per profile with a truthy
`user_id` not yet keyed in the map. -/
def addProfileUsers (profiles : List Row) (m : UserMap) : UserMap :=
  profiles.foldl (fun m profile =>
    let uid := profile.get "user_id"
    if uid.truthy && !(mapHas m uid) then
      mapSet m uid
        { id := uid, email := sliceEmail uid,
          full_name := profile.get "full_name", department := profile.get "department" }
    else m) m

/-- Phase 2 (lines 311–321): for each audit-report row with a truthy
`UserEmail` not matched by the email-membership scan over current map
values, insert a candidate keyed by the email, with a fresh random id
(the `i`-th `crypto.randomUUID()` call is embedded as the draw
`uuidAt i`). -/
def reportStep (uuidAt : Nat → String) (acc : UserMap × Nat) (report : Row) : UserMap × Nat :=
  let email := report.get "UserEmail"
  if email.truthy && !((mapValues acc.1).any (fun u => u.email == email)) then
    (mapSet acc.1 email
      { id := .str (uuidAt acc.2), email := email,
        full_name := jsOr (report.get "user_full_name") (.str "Unknown User"),
        department := .str "Data Center Operations" }, acc.2 + 1)
  else acc

def addReportUsers (uuidAt : Nat → String) (reportRows : List Row) (m : UserMap) : UserMap × Nat :=
  reportRows.foldl (reportStep uuidAt) (m, 0)

/-- The synthesized user list (lines 296–323): profiles phase, then
audit-report phase, then the map's values in insertion order.  A `null`
query result (`profiles?` / `auditReports?`) skips its phase. -/
def synthUsers (uuidAt : Nat → String) (profiles auditRows : Option (List Row)) : List SynthUser :=
  let m1 := match profiles with | some ps => addProfileUsers ps [] | none => []
  let m2 := match auditRows with | some rs => (addReportUsers uuidAt rs m1).1 | none => m1
  mapValues m2

/-- The row shipped by the per-user INSERT (lines 334–339); `now` stands
for the two `new Date()` calls. -/
def synthUserRow (now : JsValue) (u : SynthUser) : Row :=
  [ ("id", u.id), ("email", u.email), ("full_name", u.full_name),
    ("department", u.department), ("is_active", .bool true),
    ("created_at", now), ("email_confirmed_at", now) ]

/-- The per-user insert loop (lines 332–343): one
`ON CONFLICT (email) DO NOTHING` statement is executed per user; the
store appends the row only when no stored row carries that email.
Returns the new `users` table and the number of statements executed. -/
def userInsertStep (now : JsValue) (acc : List Row × Nat) (u : SynthUser) : List Row × Nat :=
  (if keyPresent acc.1 "email" u.email then acc.1 else acc.1 ++ [synthUserRow now u],
   acc.2 + 1)

def insertUsers (now : JsValue) (usersTable : List Row) (users : List SynthUser) : List Row × Nat :=
  users.foldl (userInsertStep now) (usersTable, 0)

/-- The synthesis step `createUsersFromProfiles` (lines 279–352): returns the new `users`
table contents, the step's result object, and the number of INSERT
statements executed (zero in dry-run mode). -/
def createUsersFromProfiles (dryRun : Bool) (uuidAt : Nat → String) (now : JsValue)
    (profiles auditRows : Option (List Row)) (usersTable : List Row) :
    List Row × MigResult × Nat :=
  let users := synthUsers uuidAt profiles auditRows
  if dryRun then (usersTable, .ok users.length, 0)
  else
    let (tbl, stmts) := insertUsers now usersTable users
    (tbl, .ok users.length, stmts)

/-! ## Validation pass (`validateMigration`, lines 354–385) -/

/-- The two count queries one validation iteration issues for a table:
the source count (which, like the migration count, may come back
`null`) and the target `SELECT COUNT(*)`; either may fail. -/
structure ValInput where
  sourceCount : Except String (Option Nat)
  targetCount : Except String Nat

/-- One validation record: `{source, target, match}` on success,
`{error}` when either count query failed. -/
inductive ValEntry where
  | counts (source target : Nat) (matched : Bool)
  | err (msg : String)
deriving DecidableEq, Repr

/-- One iteration of the validation loop (lines 360–381): the source
count is queried first, then the target count; a failure of either is
caught for this table alone.  A `null` source count is coerced to `0`
both in the recorded `source` field and in the `match` comparison. -/
def validateOne (q : ValInput) : ValEntry :=
  match q.sourceCount with
  | .error e => .err e
  | .ok sc =>
      match q.targetCount with
      | .error e => .err e
      | .ok tc => .counts (sc.getD 0) tc (sc.getD 0 == tc)

/-- The validation pass `validateMigration` (lines 354–385): one record per declared table
config, iterated in `Object.entries(tableMigrations)` order, keyed by
table name. -/
def validateMigration (q : String → ValInput) : List (String × ValEntry) :=
  tableMigrationsList.map (fun p => (p.1, validateOne (q p.1)))

/-! ## Run orchestrator (`main`, lines 411–461) and the report -/

/-- Everything `main` reads from the source store: the two unpaginated
queries of the user-synthesis step (a `null` data payload is `none`) and
the six per-table paginated sources. -/
structure Sources where
  profilesQ : Option (List Row)
  auditUsersQ : Option (List Row)
  user_profiles : SourceTable
  user_activities : SourceTable
  user_stats : SourceTable
  auditReports : SourceTable
  incidents : SourceTable
  reports : SourceTable

/-- The target database: one row list per table touched by the run. -/
structure DB where
  users : List Row
  user_profiles : List Row
  user_activities : List Row
  user_stats : List Row
  auditReports : List Row
  incidents : List Row
  reports : List Row
deriving DecidableEq

/-- One entry of `main`'s `results` object: a migration result (the
`users` step or one table), or the validation pass's record object. -/
inductive ResultEntry where
  | mig (r : MigResult)
  | validation (v : List (String × ValEntry))
deriving DecidableEq

/-- JavaScript truthiness of `entry.success`: the validation record
object has no `success` property, so the lookup yields `undefined`,
which is falsy. -/
def ResultEntry.successField : ResultEntry → Bool
  | .mig r => r.success
  | .validation _ => false

/-- The value `entry.recordsMigrated || 0` as read by the report's total. -/
def ResultEntry.records : ResultEntry → Nat
  | .mig r => r.recordsMigrated
  | .validation _ => 0

/-- The validation pass as run inside the pipeline: source counts are
re-read from the (pure) sources, target counts are the target tables'
cardinalities; no count query fails in this model. -/
def pipelineValidation (src : Sources) (db : DB) : List (String × ValEntry) :=
  [ ("AuditReports", validateOne ⟨.ok src.auditReports.count, .ok db.auditReports.length⟩),
    ("user_profiles", validateOne ⟨.ok src.user_profiles.count, .ok db.user_profiles.length⟩),
    ("user_activities", validateOne ⟨.ok src.user_activities.count, .ok db.user_activities.length⟩),
    ("user_stats", validateOne ⟨.ok src.user_stats.count, .ok db.user_stats.length⟩),
    ("incidents", validateOne ⟨.ok src.incidents.count, .ok db.incidents.length⟩),
    ("reports", validateOne ⟨.ok src.reports.count, .ok db.reports.length⟩) ]

/-- The `summary` block of the migration report (lines 395–402). -/
structure Summary where
  totalTables : Nat
  successfulTables : Nat
  failedTables : Nat
  totalRecordsMigrated : Nat
deriving DecidableEq, Repr

/-- The summary of `generateMigrationReport` (lines 395–402): every filter
and the total run over ALL values of the `results` object. -/
def summaryOf (results : List (String × ResultEntry)) : Summary :=
  { totalTables := results.length,
    successfulTables := (results.filter (fun p => p.2.successField)).length,
    failedTables := (results.filter (fun p => !p.2.successField)).length,
    totalRecordsMigrated :=
      ((results.filter (fun p => p.2.successField)).map (fun p => p.2.records)).sum }

/-- The exit status of a run that reaches the report (lines 448–451):
`1` when the summary records any failed table, `0` otherwise. -/
def exitCodeOf (s : Summary) : Nat :=
  if 0 < s.failedTables then 1 else 0

/-- The outcome of one full (unfiltered) run of `main`: the target
database afterwards, the `results` object in insertion order, and the
total number of INSERT statements executed against the target. -/
structure PipelineOutcome where
  db : DB
  results : List (String × ResultEntry)
  executed : Nat

/-- The run orchestrator `main` (lines 411–461) without the `--table` filter: user synthesis
first, then the six table migrations in the hardcoded dependency order
`user_profiles, user_activities, user_stats, AuditReports, incidents,
reports`, then — only outside dry-run mode — the validation pass, whose
record object is stored under the `validation` key of `results`.
`randAt` and `uuidAt` embed the run's `Math.random` and
`crypto.randomUUID` draws, `now` its `new Date()` values. -/
def runPipeline (dryRun : Bool) (randAt : Nat → Int) (uuidAt : Nat → String)
    (now : JsValue) (src : Sources) (db : DB) : PipelineOutcome :=
  let u := createUsersFromProfiles dryRun uuidAt now src.profilesQ src.auditUsersQ db.users
  let t1 := migrateTable dryRun cfgUserProfiles randAt src.user_profiles db.user_profiles
  let t2 := migrateTable dryRun cfgUserActivities randAt src.user_activities db.user_activities
  let t3 := migrateTable dryRun cfgUserStats randAt src.user_stats db.user_stats
  let t4 := migrateTable dryRun cfgAuditReports randAt src.auditReports db.auditReports
  let t5 := migrateTable dryRun cfgIncidents randAt src.incidents db.incidents
  let t6 := migrateTable dryRun cfgReports randAt src.reports db.reports
  let db2 : DB :=
    { users := u.1, user_profiles := t1.target, user_activities := t2.target,
      user_stats := t3.target, auditReports := t4.target, incidents := t5.target,
      reports := t6.target }
  let base : List (String × ResultEntry) :=
    [ ("users", .mig u.2.1),
      ("user_profiles", .mig t1.result),
      ("user_activities", .mig t2.result),
      ("user_stats", .mig t3.result),
      ("AuditReports", .mig t4.result),
      ("incidents", .mig t5.result),
      ("reports", .mig t6.result) ]
  let results := if dryRun then base else base ++ [("validation", .validation (pipelineValidation src db2))]
  { db := db2, results := results,
    executed := u.2.2 + t1.executed.length + t2.executed.length + t3.executed.length
      + t4.executed.length + t5.executed.length + t6.executed.length }

/-- A sample `AuditReports` source row with `walkthrough_id` absent. -/
def sampleNoWalkRow : Row := [("Id", JsValue.str "r1")]

/-- A row whose defaultable fields are all present but falsy. -/
def falsyFieldsRow : Row :=
  [ ("state", JsValue.str ""), ("issues_reported", JsValue.null),
    ("walkthrough_id", JsValue.num 0), ("description", JsValue.str ""),
    ("status", JsValue.bool false) ]

/-- A concrete validation scenario: the first table's source count query
fails, the second's count is `null`, every other table counts `2` on
both sides. -/
def sampleValInputs : String → ValInput := fun name =>
  if name = "AuditReports" then ⟨.error "boom", .ok 0⟩
  else if name = "user_profiles" then ⟨.ok none, .ok 0⟩
  else if name = "user_activities" then ⟨.ok (some 2), .error "down"⟩
  else ⟨.ok (some 2), .ok 2⟩

/-- An audit-report row whose `UserEmail` is the empty string: non-null,
but falsy. -/
def emptyEmailReport : Row := [("UserEmail", JsValue.str "")]

/-- A source store on which every step trivially succeeds: all tables
empty, both synthesis queries return empty data. -/
def emptySources : Sources :=
  { profilesQ := some [], auditUsersQ := some [],
    user_profiles := ⟨some 0, fun _ => .ok []⟩,
    user_activities := ⟨some 0, fun _ => .ok []⟩,
    user_stats := ⟨some 0, fun _ => .ok []⟩,
    auditReports := ⟨some 0, fun _ => .ok []⟩,
    incidents := ⟨some 0, fun _ => .ok []⟩,
    reports := ⟨some 0, fun _ => .ok []⟩ }

/-- An empty target database. -/
def emptyDB : DB := ⟨[], [], [], [], [], [], []⟩

/-- A transform preserves its table's key column: the stored key equals
the source row's key whatever the random draw. -/
def KeyStable (cfg : TableConfig) : Prop :=
  ∀ (r : Int) (row : Row), (cfg.transform r row).get cfg.keyCol = row.get cfg.keyCol

/-- The id-independent part of a synthesized user: everything except the
randomly generated id. -/
def userSig (u : SynthUser) : JsValue × JsValue × JsValue :=
  (u.email, u.full_name, u.department)

/-- The id-independent part of the synthesis map. -/
def mapSig (m : UserMap) : List (JsValue × (JsValue × JsValue × JsValue)) :=
  m.map (fun p => (p.1, userSig p.2))

/-- Whether a value is a JavaScript string. -/
def JsValue.isStr : JsValue → Bool
  | .str _ => true
  | _ => false

/-- A source store in which the synthesis queries succeed and every
table is a well-behaved paginated source over a fixed row list. -/
def mkStdSources (profiles auditRows rowsUP rowsUA rowsUS rowsAR rowsInc rowsRep : List Row) :
    Sources :=
  { profilesQ := some profiles, auditUsersQ := some auditRows,
    user_profiles := stdSource rowsUP, user_activities := stdSource rowsUA,
    user_stats := stdSource rowsUS, auditReports := stdSource rowsAR,
    incidents := stdSource rowsInc, reports := stdSource rowsRep }

/-- Witness profiles: one profile row with a string user id. -/
def w3profiles : List Row := [[("user_id", JsValue.str "abcdef-123")]]

/-- Witness audit-report rows for user synthesis. -/
def w3reports : List Row := [[("UserEmail", JsValue.str "a@b.com")]]

/-- First pipeline run of the idempotence witness scenario. -/
def w3run1 : PipelineOutcome :=
  runPipeline false (fun _ => 1) (fun _ => "uuid-1") (JsValue.str "t1")
    (mkStdSources w3profiles w3reports [[("user_id", JsValue.str "u1")]] [] []
      [[("Id", JsValue.str "r1")]] [] []) emptyDB

/-- Second pipeline run, against the first run's target, with different
random draws. -/
def w3run2 : PipelineOutcome :=
  runPipeline false (fun _ => 2) (fun _ => "uuid-2") (JsValue.str "t2")
    (mkStdSources w3profiles w3reports [[("user_id", JsValue.str "u1")]] [] []
      [[("Id", JsValue.str "r1")]] [] []) w3run1.db

/-! ## Basic lemmas -/

theorem jsOr_of_falsy {a : JsValue} (b : JsValue) (h : a.truthy = false) : jsOr a b = b := by
  simp [jsOr, h]

theorem jsOr_of_truthy {a : JsValue} (b : JsValue) (h : a.truthy = true) : jsOr a b = a := by
  simp [jsOr, h]

theorem transformPage_length (cfg : TableConfig) (randAt : Nat → Int) (base : Nat) (page : List Row) :
    (transformPage cfg randAt base page).length = page.length := by
  simp [transformPage]

/-! ## Claim C2: determinism of the row transformers -/

/-- C2 counterexample: the claim asserts that every row transformer is
deterministic, "including rows where walkthrough_id is absent"; but the
`AuditReports` transform fills an absent `walkthrough_id` from
`Math.floor(Math.random() * 10000)`, so two applications of the
transform with distinct draws produce different rows. -/
theorem claim2_counterexample :
    cfgAuditReports.transform 1 sampleNoWalkRow ≠ cfgAuditReports.transform 2 sampleNoWalkRow := by
  decide

/-- C2 (amended): every transform other than the `AuditReports` one is a
pure function of the row alone, and the `AuditReports` transform is
deterministic exactly on rows whose `walkthrough_id` is truthy (for
falsy `walkthrough_id` the output depends on the random draw). -/
theorem claim2_amended (r1 r2 : Int) (row : Row)
    (h : (row.get "walkthrough_id").truthy = true) :
    cfgAuditReports.transform r1 row = cfgAuditReports.transform r2 row ∧
    cfgUserProfiles.transform r1 row = cfgUserProfiles.transform r2 row ∧
    cfgUserActivities.transform r1 row = cfgUserActivities.transform r2 row ∧
    cfgUserStats.transform r1 row = cfgUserStats.transform r2 row ∧
    cfgIncidents.transform r1 row = cfgIncidents.transform r2 row ∧
    cfgReports.transform r1 row = cfgReports.transform r2 row := by
  refine ⟨?_, rfl, rfl, rfl, rfl, rfl⟩
  show auditReportsTransform r1 row = auditReportsTransform r2 row
  simp only [auditReportsTransform, jsOr_of_truthy _ h]

/-- C2 amended witness: a row with a truthy `walkthrough_id` is
transformed identically under distinct random draws. -/
theorem claim2_amended_witness :
    ((Row.get [("walkthrough_id", JsValue.num 5)] "walkthrough_id").truthy = true) ∧
    cfgAuditReports.transform 1 [("walkthrough_id", JsValue.num 5)] =
      cfgAuditReports.transform 2 [("walkthrough_id", JsValue.num 5)] :=
  ⟨by decide, (claim2_amended 1 2 [("walkthrough_id", JsValue.num 5)] (by decide)).1⟩

/-! ## Claim C9: defaulting triggers on any falsy value -/

/-- C9: the transformers default on ANY falsy field value, not only on
absent fields: a falsy `state` becomes `"Healthy"`, a falsy
`issues_reported` becomes `0`, a falsy `walkthrough_id` (for instance
the legitimate value `0`) is replaced by the random draw, and likewise
the `incidents` transform replaces a falsy `description`/`status` by
`""`/`"open"`.  A stored falsy value can therefore not survive
migration. -/
theorem claim9_falsy_defaults (rand : Int) (row : Row) :
    ((row.get "state").truthy = false →
      (auditReportsTransform rand row).get "state" = .str "Healthy") ∧
    ((row.get "issues_reported").truthy = false →
      (auditReportsTransform rand row).get "issues_reported" = .num 0) ∧
    ((row.get "walkthrough_id").truthy = false →
      (auditReportsTransform rand row).get "walkthrough_id" = .num rand) ∧
    ((row.get "description").truthy = false →
      (incidentsTransform row).get "description" = .str "") ∧
    ((row.get "status").truthy = false →
      (incidentsTransform row).get "status" = .str "open") := by
  refine ⟨fun h => ?_, fun h => ?_, fun h => ?_, fun h => ?_, fun h => ?_⟩
  · show jsOr (row.get "state") (.str "Healthy") = .str "Healthy"
    exact jsOr_of_falsy _ h
  · show jsOr (row.get "issues_reported") (.num 0) = .num 0
    exact jsOr_of_falsy _ h
  · show jsOr (row.get "walkthrough_id") (.num rand) = .num rand
    exact jsOr_of_falsy _ h
  · show jsOr (row.get "description") (.str "") = .str ""
    exact jsOr_of_falsy _ h
  · show jsOr (row.get "status") (.str "open") = .str "open"
    exact jsOr_of_falsy _ h

/-- C9 witness: on a row storing `state: ""`, `issues_reported: null`,
`walkthrough_id: 0`, `description: ""` and `status: false`, every
default fires. -/
theorem claim9_falsy_defaults_witness :
    (auditReportsTransform 7 falsyFieldsRow).get "state" = .str "Healthy" ∧
    (auditReportsTransform 7 falsyFieldsRow).get "issues_reported" = .num 0 ∧
    (auditReportsTransform 7 falsyFieldsRow).get "walkthrough_id" = .num 7 ∧
    (incidentsTransform falsyFieldsRow).get "description" = .str "" ∧
    (incidentsTransform falsyFieldsRow).get "status" = .str "open" :=
  ⟨(claim9_falsy_defaults 7 falsyFieldsRow).1 (by decide),
   (claim9_falsy_defaults 7 falsyFieldsRow).2.1 (by decide),
   (claim9_falsy_defaults 7 falsyFieldsRow).2.2.1 (by decide),
   (claim9_falsy_defaults 7 falsyFieldsRow).2.2.2.1 (by decide),
   (claim9_falsy_defaults 7 falsyFieldsRow).2.2.2.2 (by decide)⟩

/-! ## Claim C10: a null count is indistinguishable from an empty table -/

/-- C10: when the source count query yields no usable count (`null` /
`undefined` — e.g. the count query itself errored), `migrateTable`
returns `{success: true, recordsMigrated: 0}` without attempting a
single page fetch or executing a single write, leaving the target
untouched — exactly the trace a genuinely empty table (count `0`)
produces, so a failed count is not recorded as a failure. -/
theorem claim10_null_count (dryRun : Bool) (cfg : TableConfig) (randAt : Nat → Int)
    (fp : Nat → Except String (List Row)) (target : List Row) :
    migrateTable dryRun cfg randAt ⟨none, fp⟩ target =
      ⟨[], [], [], target, .ok 0⟩ ∧
    migrateTable dryRun cfg randAt ⟨none, fp⟩ target =
      migrateTable dryRun cfg randAt ⟨some 0, fp⟩ target := by
  constructor <;> rfl

/-! ## Claim C4: shape of the generated INSERT -/

theorem placeholderGroups_flatten (n m : Nat) :
    (placeholderGroups n m).flatten = List.range' 1 (n * m) := by
  induction n with
  | zero => simp [placeholderGroups]
  | succ n ih =>
    have h1 : placeholderGroups (n + 1) m =
        placeholderGroups n m ++
          [(List.range m).map (fun colIndex => n * m + colIndex + 1)] := by
      rw [placeholderGroups, List.range_succ, List.map_append]
      rfl
    rw [h1, List.flatten_append, ih]
    have h2 : (List.range m).map (fun colIndex => n * m + colIndex + 1) =
        List.range' (1 + n * m) m := by
      rw [List.range'_eq_map_range]
      apply List.map_congr_left
      intro c _
      omega
    have h3 := List.range'_append 1 (n * m) m 1
    simp only [one_mul] at h3
    have h4 : (n + 1) * m = m + n * m := by ring
    simp only [List.flatten_cons, List.flatten_nil, List.append_nil, h2, h4]
    exact h3

theorem flatMap_length_const {α β : Type} (l : List α) (f : α → List β) (m : Nat)
    (hf : ∀ a ∈ l, (f a).length = m) : (l.flatMap f).length = l.length * m := by
  induction l with
  | nil => simp
  | cons a t ih =>
    rw [List.flatMap_cons, List.length_append, hf a (by simp),
      ih (fun x hx => hf x (by simp [hx])), List.length_cons]
    ring

theorem flatMap_getElem_const {α β : Type} (f : α → List β) (m : Nat) (a0 : α)
    (hm : 0 < m) (hf : ∀ a, (f a).length = m) :
    ∀ (l : List α) (k : Nat), k < l.length * m →
      (l.flatMap f)[k]? = (f (l.getD (k / m) a0))[k % m]? := by
  intro l
  induction l with
  | nil => intro k hk; simp at hk
  | cons a t ih =>
    intro k hk
    rw [List.flatMap_cons]
    by_cases h : k < m
    · rw [List.getElem?_append]
      rw [hf a]
      simp [h, Nat.div_eq_of_lt h, Nat.mod_eq_of_lt h]
    · push_neg at h
      rw [List.getElem?_append_right (by rw [hf]; exact h), hf]
      have ht : k - m < t.length * m := by
        rw [List.length_cons, Nat.succ_mul] at hk
        omega
      rw [ih (k - m) ht, Nat.div_eq_sub_div hm h, Nat.mod_eq_sub_mod h]
      simp

/-- C4: for a non-empty batch of `N` rows over `M` columns, the batch
writer executes exactly one statement whose VALUES clause has exactly
`N` parenthesized groups of `M` placeholders each, numbered
consecutively `$1 … $(N*M)` in row-major order, and whose flattened
parameter array has length `N*M`, parameter index `k` (0-based) holding
row `k / M`'s bound value for column `k % M`. -/
theorem claim4_insert_shape (keyCol tableName : String) (data : List Row)
    (columns : List String) (target : List Row) (hne : data.length ≠ 0) :
    (insertBatch keyCol tableName data columns target).2 =
      [{ table := tableName, columns := columns,
         groups := placeholderGroups data.length columns.length,
         params := flattenParams data columns }] ∧
    (placeholderGroups data.length columns.length).length = data.length ∧
    (∀ g ∈ placeholderGroups data.length columns.length, g.length = columns.length) ∧
    (placeholderGroups data.length columns.length).flatten =
      List.range' 1 (data.length * columns.length) ∧
    (flattenParams data columns).length = data.length * columns.length ∧
    (∀ k, k < data.length * columns.length →
      (flattenParams data columns).getD k default =
        bindValue ((data.getD (k / columns.length) default).get
          (columns.getD (k % columns.length) ""))) := by
  refine ⟨?_, ?_, ?_, placeholderGroups_flatten _ _, ?_, ?_⟩
  · rw [insertBatch, if_neg hne]
  · simp [placeholderGroups]
  · intro g hg
    simp only [placeholderGroups, List.mem_map] at hg
    obtain ⟨i, _, hgi⟩ := hg
    rw [← hgi]
    simp
  · exact flatMap_length_const data _ columns.length (fun a _ => by simp)
  · intro k hk
    have hm : 0 < columns.length :=
      Nat.pos_of_ne_zero (fun h0 => by rw [h0, Nat.mul_zero] at hk; exact Nat.not_lt_zero _ hk)
    have hj : k % columns.length < columns.length := Nat.mod_lt _ hm
    rw [List.getD_eq_getElem?_getD, flattenParams,
      flatMap_getElem_const _ columns.length default hm (fun a => by simp) data k hk,
      List.getElem?_map, List.getElem?_eq_getElem hj]
    simp [List.getD_eq_getElem?_getD, List.getElem?_eq_getElem hj]

/-- C4 witness: a concrete two-row, two-column batch produces one
statement with groups `($1, $2), ($3, $4)` and four parameters, the
third parameter being row 1's JSON-serialized value for column 0. -/
theorem claim4_insert_shape_witness :
    ([[("a", JsValue.num 1)], [("a", JsValue.emptyObj)]] : List Row).length ≠ 0 ∧
    (insertBatch "a" "T" [[("a", JsValue.num 1)], [("a", JsValue.emptyObj)]] ["a", "b"] []).2 =
      [{ table := "T", columns := ["a", "b"],
         groups := placeholderGroups 2 2,
         params := flattenParams [[("a", JsValue.num 1)], [("a", JsValue.emptyObj)]] ["a", "b"] }] ∧
    (placeholderGroups 2 2).flatten = List.range' 1 4 ∧
    (flattenParams [[("a", JsValue.num 1)], [("a", JsValue.emptyObj)]] ["a", "b"]).length = 4 ∧
    (flattenParams [[("a", JsValue.num 1)], [("a", JsValue.emptyObj)]] ["a", "b"]).getD 2 default =
      BindParam.jsonText JsValue.emptyObj := by
  have h := claim4_insert_shape "a" "T"
    [[("a", JsValue.num 1)], [("a", JsValue.emptyObj)]] ["a", "b"] [] (by decide)
  refine ⟨by decide, h.1, h.2.2.2.1, h.2.2.2.2.1, ?_⟩
  have h2 := h.2.2.2.2.2 2 (by decide)
  rw [h2]
  decide

/-! ## Claim C8: the validation pass -/

theorem mem_validateMigration (q : String → ValInput) (name : String) (cfg : TableConfig)
    (h : (name, cfg) ∈ tableMigrationsList) :
    (name, validateOne (q name)) ∈ validateMigration q := by
  rw [validateMigration]
  exact List.mem_map.mpr ⟨(name, cfg), h, rfl⟩

/-- C8: the validation pass records, for every one of the six declared
table configs, `{source, target, match: source === target}` when both
count queries succeed (a `null` source count being coerced to `0` both
in the recorded field and in the comparison), records `{error}` for a
table when either of its count queries fails, and in every case still
produces exactly one entry per declared table, in declaration order —
no per-table failure aborts validation of the remaining tables. -/
theorem claim8_validation (q : String → ValInput) :
    ((validateMigration q).map Prod.fst =
      ["AuditReports", "user_profiles", "user_activities", "user_stats", "incidents", "reports"]) ∧
    (∀ name cfg, (name, cfg) ∈ tableMigrationsList →
      (∀ sc tc, (q name).sourceCount = .ok sc → (q name).targetCount = .ok tc →
        (name, ValEntry.counts (sc.getD 0) tc (sc.getD 0 == tc)) ∈ validateMigration q) ∧
      (∀ e, (q name).sourceCount = .error e →
        (name, ValEntry.err e) ∈ validateMigration q) ∧
      (∀ sc e, (q name).sourceCount = .ok sc → (q name).targetCount = .error e →
        (name, ValEntry.err e) ∈ validateMigration q)) := by
  refine ⟨by simp [validateMigration, tableMigrationsList], ?_⟩
  intro name cfg hmem
  refine ⟨fun sc tc hs ht => ?_, fun e hs => ?_, fun sc e hs ht => ?_⟩
  · have := mem_validateMigration q name cfg hmem
    rwa [validateOne, hs, ht] at this
  · have := mem_validateMigration q name cfg hmem
    rwa [validateOne, hs] at this
  · have := mem_validateMigration q name cfg hmem
    rwa [validateOne, hs, ht] at this

/-- C8 witness: with one failing source count, one `null` source count
and one failing target count, the corresponding `{error}` / coerced
`{source: 0, target: 0, match: true}` / `{source: 2, target: 2,
match: true}` records are all present, and the pass still has one entry
per table. -/
theorem claim8_validation_witness :
    ("AuditReports", ValEntry.err "boom") ∈ validateMigration sampleValInputs ∧
    ("user_profiles", ValEntry.counts 0 0 true) ∈ validateMigration sampleValInputs ∧
    ("user_activities", ValEntry.err "down") ∈ validateMigration sampleValInputs ∧
    ("reports", ValEntry.counts 2 2 true) ∈ validateMigration sampleValInputs ∧
    (validateMigration sampleValInputs).map Prod.fst =
      ["AuditReports", "user_profiles", "user_activities", "user_stats", "incidents", "reports"] :=
  ⟨((claim8_validation sampleValInputs).2 "AuditReports" cfgAuditReports (by simp [tableMigrationsList])).2.1
      "boom" rfl,
   ((claim8_validation sampleValInputs).2 "user_profiles" cfgUserProfiles (by simp [tableMigrationsList])).1
      none 0 rfl rfl,
   ((claim8_validation sampleValInputs).2 "user_activities" cfgUserActivities (by simp [tableMigrationsList])).2.2
      (some 2) "down" rfl rfl,
   ((claim8_validation sampleValInputs).2 "reports" cfgReports (by simp [tableMigrationsList])).1
      (some 2) 2 rfl rfl,
   (claim8_validation sampleValInputs).1⟩

/-! ## Claim C6: user-synthesis email deduplication -/

/-- C6 counterexample: the claim promises exactly one candidate user for
any non-null `UserEmail` shared by two report rows, but the synthesis
guard is `if (email && …)`, a truthiness test: for the non-null (yet
falsy) email `""` no candidate at all is produced. -/
theorem claim6_counterexample :
    emptyEmailReport.get "UserEmail" ≠ JsValue.null ∧
    ((synthUsers (fun _ => "uuid-0") (some []) (some [emptyEmailReport, emptyEmailReport])).filter
      (fun u => u.email == JsValue.str "")).length ≠ 1 := by
  decide

/-- C6 (amended): given zero `user_profiles` rows and exactly two
audit-report rows sharing the same truthy (non-null and non-empty)
`UserEmail`, the synthesized user set contains exactly one candidate
user with that email — the second occurrence is rejected by the
email-membership scan over the current map values. -/
theorem claim6_dedup (uuidAt : Nat → String) (email : JsValue) (r1 r2 : Row)
    (he : email.truthy = true)
    (h1 : r1.get "UserEmail" = email) (h2 : r2.get "UserEmail" = email) :
    ((synthUsers uuidAt (some []) (some [r1, r2])).filter
      (fun u => u.email == email)).length = 1 := by
  simp only [synthUsers, addProfileUsers, addReportUsers, reportStep, mapValues, mapSet, mapHas,
    List.foldl_nil, List.foldl_cons, h1, h2, he, List.any_nil, Bool.not_false,
    Bool.and_true, Bool.true_and, List.map_nil, if_true, if_false, List.nil_append,
    List.any_cons, List.map_cons, beq_self_eq_true, Bool.not_true, Bool.or_false,
    Bool.false_and, ite_false, List.filter]
  simp

/-- C6 witness: two concrete report rows with the same real email yield
exactly one synthesized candidate for it. -/
theorem claim6_dedup_witness :
    ((JsValue.str "a@b.com").truthy = true) ∧
    ((synthUsers (fun _ => "uuid-0") (some [])
        (some [[("UserEmail", JsValue.str "a@b.com")], [("UserEmail", JsValue.str "a@b.com")]])).filter
      (fun u => u.email == JsValue.str "a@b.com")).length = 1 :=
  ⟨by decide,
   claim6_dedup (fun _ => "uuid-0") (JsValue.str "a@b.com")
     [("UserEmail", JsValue.str "a@b.com")] [("UserEmail", JsValue.str "a@b.com")]
     (by decide) rfl rfl⟩

/-! ## Claim C5: the 2,500-row paging scenario -/

theorem migrateLoop_nil {cfg : TableConfig} {randAt : Nat → Int} {dryRun : Bool}
    {fp : Nat → Except String (List Row)} {recs : Nat} {fs ps : List Nat}
    {execs : List ExecutedQuery} {target : List Row} :
    migrateLoop cfg randAt dryRun fp [] recs fs ps execs target =
      ⟨fs, ps, execs, target, .ok recs⟩ := rfl

theorem migrateLoop_cons_err {cfg : TableConfig} {randAt : Nat → Int} {dryRun : Bool}
    {fp : Nat → Except String (List Row)} {off : Nat} {rest : List Nat} {recs : Nat}
    {fs ps : List Nat} {execs : List ExecutedQuery} {target : List Row} {e : String}
    (hfp : fp off = .error e) :
    migrateLoop cfg randAt dryRun fp (off :: rest) recs fs ps execs target =
      ⟨fs ++ [off], ps, execs, target,
       .err ("Failed to fetch data from " ++ cfg.sourceTable ++ ": " ++ e)⟩ := by
  simp only [migrateLoop, hfp]

theorem migrateLoop_cons_empty {cfg : TableConfig} {randAt : Nat → Int} {dryRun : Bool}
    {fp : Nat → Except String (List Row)} {off : Nat} {rest : List Nat} {recs : Nat}
    {fs ps : List Nat} {execs : List ExecutedQuery} {target : List Row} {page : List Row}
    (hfp : fp off = .ok page) (hlen : page.length = 0) :
    migrateLoop cfg randAt dryRun fp (off :: rest) recs fs ps execs target =
      ⟨fs ++ [off], ps ++ [0], execs, target, .ok recs⟩ := by
  simp only [migrateLoop, hfp, hlen, if_true]

theorem migrateLoop_cons_ok {cfg : TableConfig} {randAt : Nat → Int} {dryRun : Bool}
    {fp : Nat → Except String (List Row)} {off : Nat} {rest : List Nat} {recs : Nat}
    {fs ps : List Nat} {execs : List ExecutedQuery} {target : List Row} {page : List Row}
    (hfp : fp off = .ok page) (hne : page.length ≠ 0) :
    migrateLoop cfg randAt dryRun fp (off :: rest) recs fs ps execs target =
      migrateLoop cfg randAt dryRun fp rest (recs + page.length)
        (fs ++ [off]) (ps ++ [page.length])
        (execs ++ (if dryRun then []
          else (insertBatch cfg.keyCol cfg.targetTable
            (transformPage cfg randAt recs page) cfg.columns target).2))
        (if dryRun then target
          else (insertBatch cfg.keyCol cfg.targetTable
            (transformPage cfg randAt recs page) cfg.columns target).1) := by
  simp only [migrateLoop, hfp, hne, if_neg, if_false, transformPage_length]
  cases dryRun <;> simp [hne]

/-- C5: for a source table whose count query reports exactly 2,500 rows
and whose pages are the successive 1000-row slices of the data,
`migrateTable` for `AuditReports` performs exactly 3 page fetches, at
offsets 0, 1000 and 2000, receiving 1000, 1000 and 500 rows, and
returns `{success: true, recordsMigrated: 2500}`. -/
theorem claim5_paging (dryRun : Bool) (randAt : Nat → Int) (rows target : List Row)
    (h : rows.length = 2500) :
    (migrateTable dryRun cfgAuditReports randAt (stdSource rows) target).fetches =
      [0, 1000, 2000] ∧
    (migrateTable dryRun cfgAuditReports randAt (stdSource rows) target).pages =
      [1000, 1000, 500] ∧
    (migrateTable dryRun cfgAuditReports randAt (stdSource rows) target).result =
      .ok 2500 := by
  have hsrc : stdSource rows = ⟨some 2500, (stdSource rows).fetchPage⟩ := by
    rw [stdSource, h]
  rw [hsrc]
  have hstep0 : migrateTable dryRun cfgAuditReports randAt
      ⟨some 2500, (stdSource rows).fetchPage⟩ target =
      migrateLoop cfgAuditReports randAt dryRun (stdSource rows).fetchPage
        (pageOffsets 2500) 0 [] [] [] target := rfl
  have hpo : pageOffsets 2500 = [0, 1000, 2000] := by decide
  have hfp : ∀ off : Nat, (stdSource rows).fetchPage off =
      .ok ((rows.drop off).take batchSize) := fun _ => rfl
  have hlen : ∀ off : Nat, ((rows.drop off).take batchSize).length =
      min batchSize (2500 - off) := by
    intro off
    simp [List.length_take, List.length_drop, h]
  have p0 : ((rows.drop 0).take batchSize).length = 1000 := by rw [hlen]; decide
  have p1 : ((rows.drop 1000).take batchSize).length = 1000 := by rw [hlen]; decide
  have p2 : ((rows.drop 2000).take batchSize).length = 500 := by rw [hlen]; decide
  rw [hstep0, hpo,
    migrateLoop_cons_ok (hfp 0) (by rw [p0]; decide),
    migrateLoop_cons_ok (hfp 1000) (by rw [p1]; decide),
    migrateLoop_cons_ok (hfp 2000) (by rw [p2]; decide),
    migrateLoop_nil, p0, p1, p2]
  refine ⟨by simp, by simp, by simp⟩

/-- C5 witness: the paging scenario instantiated with 2,500 concrete
(empty) rows. -/
theorem claim5_paging_witness :
    (List.replicate 2500 ([] : Row)).length = 2500 ∧
    (migrateTable false cfgAuditReports (fun _ => 0)
      (stdSource (List.replicate 2500 [])) []).fetches = [0, 1000, 2000] ∧
    (migrateTable false cfgAuditReports (fun _ => 0)
      (stdSource (List.replicate 2500 [])) []).pages = [1000, 1000, 500] ∧
    (migrateTable false cfgAuditReports (fun _ => 0)
      (stdSource (List.replicate 2500 [])) []).result = .ok 2500 :=
  ⟨List.length_replicate 2500 [],
   (claim5_paging false (fun _ => 0) (List.replicate 2500 []) []
     (List.length_replicate 2500 [])).1,
   (claim5_paging false (fun _ => 0) (List.replicate 2500 []) []
     (List.length_replicate 2500 [])).2.1,
   (claim5_paging false (fun _ => 0) (List.replicate 2500 []) []
     (List.length_replicate 2500 [])).2.2⟩

/-! ## Claim C1: exit status of a fully successful non-dry run -/

/-- C1 (bug demonstration): in a non-dry-run execution in which the
user-synthesis step and every table migration return `{success: true}`,
the report's `summary.failedTables` is nonetheless `1` — not `0` — and
the process exits with status `1`, because `results.validation` (an
object with no `success` field) is counted by
`filter(r => !r.success)`.  This contradicts the claimed (and
spec-documented) exit status `0` on success. -/
theorem claim1_exit_code_bug :
    (∀ p ∈ (runPipeline false (fun _ => 0) (fun _ => "") JsValue.null emptySources emptyDB).results,
      p.1 ≠ "validation" → p.2.successField = true) ∧
    (summaryOf (runPipeline false (fun _ => 0) (fun _ => "") JsValue.null
      emptySources emptyDB).results).failedTables = 1 ∧
    exitCodeOf (summaryOf (runPipeline false (fun _ => 0) (fun _ => "") JsValue.null
      emptySources emptyDB).results) = 1 := by
  decide

/-! ## Claim C7: dry-run writes nothing yet counts everything -/

theorem migrateLoop_cons_ok_dry {cfg : TableConfig} {randAt : Nat → Int}
    {fp : Nat → Except String (List Row)} {off : Nat} {rest : List Nat} {recs : Nat}
    {fs ps : List Nat} {execs : List ExecutedQuery} {target : List Row} {page : List Row}
    (hfp : fp off = .ok page) (hne : page.length ≠ 0) :
    migrateLoop cfg randAt true fp (off :: rest) recs fs ps execs target =
      migrateLoop cfg randAt true fp rest (recs + page.length)
        (fs ++ [off]) (ps ++ [page.length]) execs target := by
  rw [migrateLoop_cons_ok hfp hne]
  simp

theorem migrateLoop_cons_ok_wet {cfg : TableConfig} {randAt : Nat → Int}
    {fp : Nat → Except String (List Row)} {off : Nat} {rest : List Nat} {recs : Nat}
    {fs ps : List Nat} {execs : List ExecutedQuery} {target : List Row} {page : List Row}
    (hfp : fp off = .ok page) (hne : page.length ≠ 0) :
    migrateLoop cfg randAt false fp (off :: rest) recs fs ps execs target =
      migrateLoop cfg randAt false fp rest (recs + page.length)
        (fs ++ [off]) (ps ++ [page.length])
        (execs ++ (insertBatch cfg.keyCol cfg.targetTable
          (transformPage cfg randAt recs page) cfg.columns target).2)
        ((insertBatch cfg.keyCol cfg.targetTable
          (transformPage cfg randAt recs page) cfg.columns target).1) := by
  rw [migrateLoop_cons_ok hfp hne]
  simp

theorem migrateLoop_dry_frame (cfg : TableConfig) (randAt : Nat → Int)
    (fp : Nat → Except String (List Row)) (offsets : List Nat) :
    ∀ recs fs ps execs target,
      (migrateLoop cfg randAt true fp offsets recs fs ps execs target).target = target ∧
      (migrateLoop cfg randAt true fp offsets recs fs ps execs target).executed = execs := by
  induction offsets with
  | nil => intro recs fs ps execs target; exact ⟨rfl, rfl⟩
  | cons off rest ih =>
    intro recs fs ps execs target
    cases hfp : fp off with
    | error e => rw [migrateLoop_cons_err hfp]; exact ⟨rfl, rfl⟩
    | ok page =>
      by_cases hlen : page.length = 0
      · rw [migrateLoop_cons_empty hfp hlen]; exact ⟨rfl, rfl⟩
      · rw [migrateLoop_cons_ok_dry hfp hlen]
        exact ih (recs + page.length) (fs ++ [off]) (ps ++ [page.length]) execs target

theorem migrateLoop_result_inv (cfg : TableConfig) (r1 r2 : Nat → Int) (d1 d2 : Bool)
    (fp : Nat → Except String (List Row)) (offsets : List Nat) :
    ∀ recs fs ps e1 e2 t1 t2,
      (migrateLoop cfg r1 d1 fp offsets recs fs ps e1 t1).result =
      (migrateLoop cfg r2 d2 fp offsets recs fs ps e2 t2).result := by
  induction offsets with
  | nil => intros; rfl
  | cons off rest ih =>
    intro recs fs ps e1 e2 t1 t2
    cases hfp : fp off with
    | error e => rw [migrateLoop_cons_err hfp, migrateLoop_cons_err hfp]
    | ok page =>
      by_cases hlen : page.length = 0
      · rw [migrateLoop_cons_empty hfp hlen, migrateLoop_cons_empty hfp hlen]
      · rw [migrateLoop_cons_ok hfp hlen, migrateLoop_cons_ok hfp hlen]
        exact ih _ _ _ _ _ _ _

theorem migrateTable_dry_frame (cfg : TableConfig) (randAt : Nat → Int)
    (src : SourceTable) (target : List Row) :
    (migrateTable true cfg randAt src target).target = target ∧
    (migrateTable true cfg randAt src target).executed = [] := by
  obtain ⟨c, fp⟩ := src
  match c with
  | none => exact migrateLoop_dry_frame cfg randAt fp (pageOffsets 0) 0 [] [] [] target
  | some 0 => exact ⟨rfl, rfl⟩
  | some (n + 1) =>
    exact migrateLoop_dry_frame cfg randAt fp (pageOffsets (n + 1)) 0 [] [] [] target

theorem migrateTable_result_inv (cfg : TableConfig) (r1 r2 : Nat → Int) (d1 d2 : Bool)
    (src : SourceTable) (t1 t2 : List Row) :
    (migrateTable d1 cfg r1 src t1).result = (migrateTable d2 cfg r2 src t2).result := by
  obtain ⟨c, fp⟩ := src
  match c with
  | none => exact migrateLoop_result_inv cfg r1 r2 d1 d2 fp (pageOffsets 0) 0 [] [] _ _ _ _
  | some 0 => rfl
  | some (n + 1) =>
    exact migrateLoop_result_inv cfg r1 r2 d1 d2 fp (pageOffsets (n + 1)) 0 [] [] _ _ _ _

theorem sum_filter_append_single (l : List (String × ResultEntry)) (v : String × ResultEntry)
    (hv : v.2.successField = false) :
    ((l.filter (fun p => p.2.successField)).map (fun p => p.2.records)).sum =
    (((l ++ [v]).filter (fun p => p.2.successField)).map (fun p => p.2.records)).sum := by
  rw [List.filter_append]
  simp [List.filter, hv]

/-- C7: a dry run leaves the entire target database untouched and
executes zero INSERT statements — for the user-synthesis step and every
table alike — while every entry of the `results` object still carries
the `recordsMigrated` count the corresponding non-dry run would report,
so the report's `summary.totalRecordsMigrated` equals that of the
non-dry run (whose `results` additionally holds only the `validation`
entry, which contributes no records). -/
theorem claim7_dry_run (randAt : Nat → Int) (uuidAt : Nat → String) (now : JsValue)
    (src : Sources) (db : DB) :
    (runPipeline true randAt uuidAt now src db).db = db ∧
    (runPipeline true randAt uuidAt now src db).executed = 0 ∧
    ((runPipeline false randAt uuidAt now src db).results.map
        (fun p => (p.1, p.2.records))) =
      ((runPipeline true randAt uuidAt now src db).results.map
        (fun p => (p.1, p.2.records))) ++ [("validation", 0)] ∧
    (summaryOf (runPipeline true randAt uuidAt now src db).results).totalRecordsMigrated =
      (summaryOf (runPipeline false randAt uuidAt now src db).results).totalRecordsMigrated := by
  obtain ⟨hT1, hE1⟩ := migrateTable_dry_frame cfgUserProfiles randAt src.user_profiles db.user_profiles
  obtain ⟨hT2, hE2⟩ := migrateTable_dry_frame cfgUserActivities randAt src.user_activities db.user_activities
  obtain ⟨hT3, hE3⟩ := migrateTable_dry_frame cfgUserStats randAt src.user_stats db.user_stats
  obtain ⟨hT4, hE4⟩ := migrateTable_dry_frame cfgAuditReports randAt src.auditReports db.auditReports
  obtain ⟨hT5, hE5⟩ := migrateTable_dry_frame cfgIncidents randAt src.incidents db.incidents
  obtain ⟨hT6, hE6⟩ := migrateTable_dry_frame cfgReports randAt src.reports db.reports
  have hu : createUsersFromProfiles true uuidAt now src.profilesQ src.auditUsersQ db.users =
      (db.users, .ok (synthUsers uuidAt src.profilesQ src.auditUsersQ).length, 0) := rfl
  have huf : (createUsersFromProfiles false uuidAt now src.profilesQ src.auditUsersQ db.users).2.1 =
      .ok (synthUsers uuidAt src.profilesQ src.auditUsersQ).length := rfl
  have hR1 := migrateTable_result_inv cfgUserProfiles randAt randAt false true
    src.user_profiles db.user_profiles db.user_profiles
  have hR2 := migrateTable_result_inv cfgUserActivities randAt randAt false true
    src.user_activities db.user_activities db.user_activities
  have hR3 := migrateTable_result_inv cfgUserStats randAt randAt false true
    src.user_stats db.user_stats db.user_stats
  have hR4 := migrateTable_result_inv cfgAuditReports randAt randAt false true
    src.auditReports db.auditReports db.auditReports
  have hR5 := migrateTable_result_inv cfgIncidents randAt randAt false true
    src.incidents db.incidents db.incidents
  have hR6 := migrateTable_result_inv cfgReports randAt randAt false true
    src.reports db.reports db.reports
  refine ⟨?_, ?_, ?_, ?_⟩
  · show (DB.mk _ _ _ _ _ _ _ : DB) = db
    rw [hu]
    simp only [hT1, hT2, hT3, hT4, hT5, hT6]
  · show _ + _ + _ + _ + _ + _ + _ = 0
    rw [hu]
    simp [hE1, hE2, hE3, hE4, hE5, hE6]
  · simp only [runPipeline, if_pos, if_neg, Bool.false_eq_true, ite_true, ite_false,
      List.map_append, List.map_cons, List.map_nil]
    rw [hu]
    simp [hR1, hR2, hR3, hR4, hR5, hR6, huf, ResultEntry.records]
  · simp only [runPipeline, Bool.false_eq_true, ite_true, ite_false]
    rw [hu]
    simp only [summaryOf, hR1, hR2, hR3, hR4, hR5, hR6, huf]
    exact sum_filter_append_single _ _ rfl

/-! ## Claim C3: idempotence of re-running the pipeline -/

theorem keyStable_auditReports : KeyStable cfgAuditReports := fun _ _ => rfl

theorem keyStable_userProfiles : KeyStable cfgUserProfiles := fun _ _ => rfl

theorem keyStable_userActivities : KeyStable cfgUserActivities := fun _ _ => rfl

theorem keyStable_userStats : KeyStable cfgUserStats := fun _ _ => rfl

theorem keyStable_incidents : KeyStable cfgIncidents := fun _ _ => rfl

theorem keyStable_reports : KeyStable cfgReports := fun _ _ => rfl

theorem keyPresent_append (target : List Row) (row : Row) (keyCol : String) (v : JsValue)
    (h : keyPresent target keyCol v = true) : keyPresent (target ++ [row]) keyCol v = true := by
  simp only [keyPresent, List.any_append] at h ⊢
  simp [h]

theorem conflictSkipInsert_nil (keyCol : String) (target : List Row) :
    conflictSkipInsert keyCol target [] = target := rfl

theorem conflictSkipInsert_cons (keyCol : String) (target : List Row) (r : Row) (rest : List Row) :
    conflictSkipInsert keyCol target (r :: rest) =
      conflictSkipInsert keyCol
        (if keyPresent target keyCol (r.get keyCol) then target else target ++ [r]) rest := rfl

theorem conflictSkipInsert_mono (keyCol : String) (batch : List Row) :
    ∀ (target : List Row) (v : JsValue), keyPresent target keyCol v = true →
      keyPresent (conflictSkipInsert keyCol target batch) keyCol v = true := by
  induction batch with
  | nil => intro t v h; exact h
  | cons r rest ih =>
    intro t v h
    rw [conflictSkipInsert_cons]
    by_cases hk : keyPresent t keyCol (r.get keyCol) = true
    · rw [if_pos hk]; exact ih t v h
    · rw [if_neg hk]; exact ih _ v (keyPresent_append t r keyCol v h)

theorem conflictSkipInsert_self (keyCol : String) (batch : List Row) :
    ∀ (target : List Row), ∀ row ∈ batch,
      keyPresent (conflictSkipInsert keyCol target batch) keyCol (row.get keyCol) = true := by
  induction batch with
  | nil => intro t row h; cases h
  | cons r rest ih =>
    intro t row h
    rw [conflictSkipInsert_cons]
    rcases List.mem_cons.mp h with h | h
    · subst h
      by_cases hk : keyPresent t keyCol (row.get keyCol) = true
      · rw [if_pos hk]; exact conflictSkipInsert_mono keyCol rest t _ hk
      · rw [if_neg hk]
        apply conflictSkipInsert_mono
        simp [keyPresent, List.any_append]
    · by_cases hk : keyPresent t keyCol (r.get keyCol) = true
      · rw [if_pos hk]; exact ih t row h
      · rw [if_neg hk]; exact ih _ row h

theorem conflictSkipInsert_skip_all (keyCol : String) (batch : List Row) :
    ∀ (target : List Row),
      (∀ row ∈ batch, keyPresent target keyCol (row.get keyCol) = true) →
      conflictSkipInsert keyCol target batch = target := by
  induction batch with
  | nil => intro t _; rfl
  | cons r rest ih =>
    intro t h
    rw [conflictSkipInsert_cons, if_pos (h r (List.mem_cons_self r rest))]
    exact ih t (fun row hm => h row (List.mem_cons_of_mem r hm))

theorem transformPage_getElem (cfg : TableConfig) (randAt : Nat → Int) (base : Nat)
    (page : List Row) (i : Nat) (hi : i < page.length) :
    (transformPage cfg randAt base page).getD i default =
      cfg.transform (randAt (base + i)) (page.getD i default) := by
  have hlen : i < (transformPage cfg randAt base page).length := by
    rw [transformPage_length]; exact hi
  rw [List.getD_eq_getElem?_getD, List.getElem?_eq_getElem hlen]
  rw [List.getD_eq_getElem?_getD, List.getElem?_eq_getElem hi]
  simp only [transformPage, List.getElem_zipWith, List.getElem_range, Option.getD_some]

theorem transformPage_key_surj {cfg : TableConfig} (hks : KeyStable cfg)
    (randAt : Nat → Int) (base : Nat) (page : List Row) (row : Row) (h : row ∈ page) :
    ∃ t ∈ transformPage cfg randAt base page, t.get cfg.keyCol = row.get cfg.keyCol := by
  obtain ⟨i, hi, hrow⟩ := List.mem_iff_getElem.mp h
  have hlen : i < (transformPage cfg randAt base page).length := by
    rw [transformPage_length]; exact hi
  refine ⟨(transformPage cfg randAt base page)[i], List.getElem_mem hlen, ?_⟩
  have hget : (transformPage cfg randAt base page)[i] =
      cfg.transform (randAt (base + i)) (page.getD i default) := by
    have := transformPage_getElem cfg randAt base page i hi
    rwa [List.getD_eq_getElem?_getD, List.getElem?_eq_getElem hlen, Option.getD_some] at this
  rw [hget, hks]
  rw [List.getD_eq_getElem?_getD, List.getElem?_eq_getElem hi, Option.getD_some, hrow]

theorem transformPage_key_mem {cfg : TableConfig} (hks : KeyStable cfg)
    (randAt : Nat → Int) (base : Nat) (page : List Row) (t : Row)
    (h : t ∈ transformPage cfg randAt base page) :
    ∃ row ∈ page, t.get cfg.keyCol = row.get cfg.keyCol := by
  obtain ⟨i, hi, ht⟩ := List.mem_iff_getElem.mp h
  have hip : i < page.length := by rwa [transformPage_length] at hi
  refine ⟨page[i], List.getElem_mem hip, ?_⟩
  have hget : (transformPage cfg randAt base page)[i] =
      cfg.transform (randAt (base + i)) (page.getD i default) := by
    have := transformPage_getElem cfg randAt base page i hip
    rwa [List.getD_eq_getElem?_getD, List.getElem?_eq_getElem hi, Option.getD_some] at this
  rw [← ht, hget, hks]
  rw [List.getD_eq_getElem?_getD, List.getElem?_eq_getElem hip, Option.getD_some]

theorem stdSource_fetch (rows : List Row) (off : Nat) :
    (stdSource rows).fetchPage off = .ok ((rows.drop off).take batchSize) := rfl

theorem drop_split_batch (rows : List Row) (s : Nat) :
    rows.drop s = (rows.drop s).take batchSize ++ rows.drop (s + batchSize) := by
  conv_lhs => rw [← List.take_append_drop batchSize (rows.drop s)]
  rw [List.drop_drop]

set_option maxRecDepth 8192 in
theorem migrateLoop_std (cfg : TableConfig) (hks : KeyStable cfg) (randAt : Nat → Int)
    (rows : List Row) :
    ∀ (k s recs : Nat) (fs ps : List Nat) (execs : List ExecutedQuery) (target : List Row),
      rows.length ≤ s + batchSize * k →
      ((migrateLoop cfg randAt false (stdSource rows).fetchPage
          (List.range' s k batchSize) recs fs ps execs target).result =
        .ok (recs + (rows.length - s))) ∧
      (∀ v, keyPresent target cfg.keyCol v = true →
        keyPresent (migrateLoop cfg randAt false (stdSource rows).fetchPage
          (List.range' s k batchSize) recs fs ps execs target).target cfg.keyCol v = true) ∧
      (∀ row ∈ rows.drop s,
        keyPresent (migrateLoop cfg randAt false (stdSource rows).fetchPage
          (List.range' s k batchSize) recs fs ps execs target).target cfg.keyCol
          (row.get cfg.keyCol) = true) := by
  intro k
  induction k with
  | zero =>
    intro s recs fs ps execs target h
    have hd : rows.drop s = [] := List.drop_eq_nil_of_le (by simpa using h)
    have hr : List.range' s 0 batchSize = [] := rfl
    rw [hr, migrateLoop_nil]
    refine ⟨?_, fun v hv => hv, fun row hrow => ?_⟩
    · have hz : rows.length - s = 0 := by simp at h; omega
      rw [hz]
      rfl
    · rw [hd] at hrow; cases hrow
  | succ k ih =>
    intro s recs fs ps execs target h
    rw [List.range'_succ]
    have hfp := stdSource_fetch rows s
    by_cases hse : rows.length ≤ s
    · have hd : rows.drop s = [] := List.drop_eq_nil_of_le hse
      have hpage : (rows.drop s).take batchSize = [] := by rw [hd]; rfl
      rw [migrateLoop_cons_empty hfp (by rw [hpage]; rfl)]
      refine ⟨?_, fun v hv => hv, fun row hrow => ?_⟩
      · have hz : rows.length - s = 0 := by omega
        rw [hz]
        rfl
      · rw [hd] at hrow; cases hrow
    · push_neg at hse
      have hplen : ((rows.drop s).take batchSize).length = min batchSize (rows.length - s) := by
        simp [List.length_take, List.length_drop]
      have hne : ((rows.drop s).take batchSize).length ≠ 0 := by
        rw [hplen]
        have hb : 0 < batchSize := by decide
        omega
      rw [migrateLoop_cons_ok_wet hfp hne]
      have hib1 : (insertBatch cfg.keyCol cfg.targetTable
          (transformPage cfg randAt recs ((rows.drop s).take batchSize)) cfg.columns target).1 =
          conflictSkipInsert cfg.keyCol target
            (transformPage cfg randAt recs ((rows.drop s).take batchSize)) := by
        rw [insertBatch, if_neg (by rw [transformPage_length]; exact hne)]
      rw [hib1]
      have hcov : rows.length ≤ (s + batchSize) + batchSize * k := by
        have hb : batchSize * (k + 1) = batchSize + batchSize * k := by ring
        omega
      obtain ⟨ihres, ihmono, ihcov⟩ := ih (s + batchSize)
        (recs + ((rows.drop s).take batchSize).length) (fs ++ [s])
        (ps ++ [((rows.drop s).take batchSize).length])
        (execs ++ (insertBatch cfg.keyCol cfg.targetTable
          (transformPage cfg randAt recs ((rows.drop s).take batchSize)) cfg.columns target).2)
        (conflictSkipInsert cfg.keyCol target
          (transformPage cfg randAt recs ((rows.drop s).take batchSize))) hcov
      refine ⟨?_, ?_, ?_⟩
      · rw [ihres]
        congr 1
        rw [hplen]
        have hb : 0 < batchSize := by decide
        omega
      · intro v hv
        exact ihmono v (conflictSkipInsert_mono _ _ _ _ hv)
      · intro row hrow
        rw [drop_split_batch rows s] at hrow
        rcases List.mem_append.mp hrow with hrow | hrow
        · obtain ⟨t, ht, hkey⟩ := transformPage_key_surj hks randAt recs _ row hrow
          have hp2 : keyPresent (conflictSkipInsert cfg.keyCol target
              (transformPage cfg randAt recs ((rows.drop s).take batchSize))) cfg.keyCol
              (row.get cfg.keyCol) = true := by
            rw [← hkey]
            exact conflictSkipInsert_self _ _ target t ht
          exact ihmono _ hp2
        · exact ihcov row hrow

theorem migrateTable_std_eq_loop (cfg : TableConfig) (randAt : Nat → Int)
    (rows target : List Row) (n : Nat) (hl : rows.length = n + 1) :
    migrateTable false cfg randAt (stdSource rows) target =
      migrateLoop cfg randAt false (stdSource rows).fetchPage
        (List.range' 0 ((n + 1 + (batchSize - 1)) / batchSize) batchSize) 0 [] [] [] target := by
  have hsrc : stdSource rows = ⟨some (n + 1), (stdSource rows).fetchPage⟩ := by
    rw [stdSource, hl]
  rw [hsrc]
  rfl

theorem migrateTable_std (cfg : TableConfig) (hks : KeyStable cfg) (randAt : Nat → Int)
    (rows target : List Row) :
    ((migrateTable false cfg randAt (stdSource rows) target).result = .ok rows.length) ∧
    (∀ v, keyPresent target cfg.keyCol v = true →
      keyPresent (migrateTable false cfg randAt (stdSource rows) target).target cfg.keyCol v = true) ∧
    (∀ row ∈ rows, keyPresent (migrateTable false cfg randAt (stdSource rows) target).target
      cfg.keyCol (row.get cfg.keyCol) = true) := by
  cases hl : rows.length with
  | zero =>
    have hnil : rows = [] := List.eq_nil_of_length_eq_zero hl
    subst hnil
    exact ⟨rfl, fun v hv => hv, fun row hrow => by cases hrow⟩
  | succ n =>
    rw [migrateTable_std_eq_loop cfg randAt rows target n hl]
    have hcov : rows.length ≤ 0 + batchSize * ((n + 1 + (batchSize - 1)) / batchSize) := by
      have hdm := Nat.div_add_mod (n + 1 + (batchSize - 1)) batchSize
      have hmlt : (n + 1 + (batchSize - 1)) % batchSize < batchSize :=
        Nat.mod_lt _ (by decide)
      rw [hl]
      simp only [batchSize] at hdm hmlt ⊢
      omega
    obtain ⟨h1, h2, h3⟩ := migrateLoop_std cfg hks randAt rows
      ((n + 1 + (batchSize - 1)) / batchSize) 0 0 [] [] [] target hcov
    refine ⟨?_, h2, ?_⟩
    · rw [h1, Nat.zero_add, Nat.sub_zero, hl]
    · intro row hrow
      exact h3 row (by simpa using hrow)

theorem migrateLoop_std_noop (cfg : TableConfig) (hks : KeyStable cfg) (randAt : Nat → Int)
    (rows : List Row) :
    ∀ (k s recs : Nat) (fs ps : List Nat) (execs : List ExecutedQuery) (target : List Row),
      (∀ row ∈ rows.drop s, keyPresent target cfg.keyCol (row.get cfg.keyCol) = true) →
      (migrateLoop cfg randAt false (stdSource rows).fetchPage
        (List.range' s k batchSize) recs fs ps execs target).target = target := by
  intro k
  induction k with
  | zero => intro s recs fs ps execs target _; rfl
  | succ k ih =>
    intro s recs fs ps execs target h
    rw [List.range'_succ]
    have hfp := stdSource_fetch rows s
    by_cases hse : rows.length ≤ s
    · rw [migrateLoop_cons_empty hfp (by rw [List.drop_eq_nil_of_le hse]; rfl)]
    · push_neg at hse
      have hplen : ((rows.drop s).take batchSize).length = min batchSize (rows.length - s) := by
        simp [List.length_take, List.length_drop]
      have hne : ((rows.drop s).take batchSize).length ≠ 0 := by
        rw [hplen]
        have hb : 0 < batchSize := by decide
        omega
      rw [migrateLoop_cons_ok_wet hfp hne]
      have hskip : (insertBatch cfg.keyCol cfg.targetTable
          (transformPage cfg randAt recs ((rows.drop s).take batchSize)) cfg.columns target).1 =
          target := by
        rw [insertBatch, if_neg (by rw [transformPage_length]; exact hne)]
        apply conflictSkipInsert_skip_all
        intro t ht
        obtain ⟨row, hrowmem, hkey⟩ := transformPage_key_mem hks randAt recs _ t ht
        rw [hkey]
        apply h
        rw [drop_split_batch rows s]
        exact List.mem_append.mpr (Or.inl hrowmem)
      rw [hskip]
      apply ih
      intro row hrow
      apply h
      rw [drop_split_batch rows s]
      exact List.mem_append.mpr (Or.inr hrow)

theorem migrateTable_std_noop (cfg : TableConfig) (hks : KeyStable cfg) (randAt : Nat → Int)
    (rows target : List Row)
    (h : ∀ row ∈ rows, keyPresent target cfg.keyCol (row.get cfg.keyCol) = true) :
    (migrateTable false cfg randAt (stdSource rows) target).target = target := by
  cases hl : rows.length with
  | zero =>
    have hnil : rows = [] := List.eq_nil_of_length_eq_zero hl
    subst hnil
    rfl
  | succ n =>
    rw [migrateTable_std_eq_loop cfg randAt rows target n hl]
    apply migrateLoop_std_noop cfg hks randAt rows _ 0
    intro row hrow
    exact h row (by simpa using hrow)

theorem mapHas_eq_sig (m : UserMap) (k : JsValue) :
    mapHas m k = (mapSig m).any (fun q => q.1 == k) := by
  induction m with
  | nil => rfl
  | cons p t ih =>
    show (p.1 == k || mapHas t k) =
      ((p.1, userSig p.2).1 == k || (mapSig t).any fun q => q.1 == k)
    rw [ih]

theorem scan_eq_sig (m : UserMap) (e : JsValue) :
    (mapValues m).any (fun u => u.email == e) = (mapSig m).any (fun q => q.2.1 == e) := by
  induction m with
  | nil => rfl
  | cons p t ih =>
    show (p.2.email == e || (mapValues t).any fun u => u.email == e) =
      ((userSig p.2).1 == e || (mapSig t).any fun q => q.2.1 == e)
    rw [ih]
    rfl

theorem mapSig_mapSet (m1 m2 : UserMap) (k : JsValue) (v1 v2 : SynthUser)
    (h : mapSig m1 = mapSig m2) (hv : userSig v1 = userSig v2) :
    mapSig (mapSet m1 k v1) = mapSig (mapSet m2 k v2) := by
  rw [mapSet, mapSet, mapHas_eq_sig, mapHas_eq_sig, h]
  by_cases hk : (mapSig m2).any (fun q => q.1 == k) = true
  · rw [if_pos hk, if_pos hk]
    have e1 : ∀ (m : UserMap) (v : SynthUser),
        mapSig (m.map (fun p => if p.1 == k then (k, v) else p)) =
        (mapSig m).map (fun q => if q.1 == k then (k, userSig v) else q) := by
      intro m v
      simp only [mapSig, List.map_map]
      apply List.map_congr_left
      intro p _
      by_cases hp : (p.1 == k) = true
      · simp [Function.comp, hp]
      · simp [Function.comp, hp]
    rw [e1, e1, h, hv]
  · rw [if_neg hk, if_neg hk]
    simp only [mapSig, List.map_append, List.map_cons, List.map_nil] at h ⊢
    rw [h, hv]

theorem foldl_reportStep_sig (uuid1 uuid2 : Nat → String) (rs : List Row) :
    ∀ (m1 m2 : UserMap) (i1 i2 : Nat), mapSig m1 = mapSig m2 →
      mapSig (rs.foldl (reportStep uuid1) (m1, i1)).1 =
      mapSig (rs.foldl (reportStep uuid2) (m2, i2)).1 := by
  induction rs with
  | nil => intro m1 m2 i1 i2 h; exact h
  | cons r rest ih =>
    intro m1 m2 i1 i2 h
    rw [List.foldl_cons, List.foldl_cons]
    simp only [reportStep]
    have hc : ((r.get "UserEmail").truthy &&
        !((mapValues m1).any (fun u => u.email == r.get "UserEmail"))) =
        ((r.get "UserEmail").truthy &&
        !((mapValues m2).any (fun u => u.email == r.get "UserEmail"))) := by
      rw [scan_eq_sig, scan_eq_sig, h]
    rw [hc]
    by_cases hcond : ((r.get "UserEmail").truthy &&
        !((mapValues m2).any (fun u => u.email == r.get "UserEmail"))) = true
    · rw [if_pos hcond, if_pos hcond]
      exact ih _ _ _ _ (mapSig_mapSet _ _ _ _ _ h rfl)
    · rw [if_neg hcond, if_neg hcond]
      exact ih _ _ _ _ h

theorem synthUsers_emails (uuid1 uuid2 : Nat → String) (profiles auditRows : Option (List Row)) :
    (synthUsers uuid1 profiles auditRows).map (fun u => u.email) =
      (synthUsers uuid2 profiles auditRows).map (fun u => u.email) ∧
    (synthUsers uuid1 profiles auditRows).length =
      (synthUsers uuid2 profiles auditRows).length := by
  have hemail : ∀ m1 m2 : UserMap, mapSig m1 = mapSig m2 →
      (mapValues m1).map (fun u => u.email) = (mapValues m2).map (fun u => u.email) := by
    intro m1 m2 h
    have hm : ∀ m : UserMap, (mapValues m).map (fun u => u.email) =
        (mapSig m).map (fun q => q.2.1) := by
      intro m
      simp [mapValues, mapSig, List.map_map, Function.comp, userSig]
    rw [hm, hm, h]
  have hlen : ∀ m1 m2 : UserMap, mapSig m1 = mapSig m2 →
      (mapValues m1).length = (mapValues m2).length := by
    intro m1 m2 h
    have hm : ∀ m : UserMap, (mapValues m).length = (mapSig m).length := by
      intro m
      simp [mapValues, mapSig]
    rw [hm, hm, h]
  cases auditRows with
  | none => exact ⟨rfl, rfl⟩
  | some rs =>
    have hsig := foldl_reportStep_sig uuid1 uuid2 rs
      (match profiles with | some ps => addProfileUsers ps [] | none => [])
      (match profiles with | some ps => addProfileUsers ps [] | none => []) 0 0 rfl
    exact ⟨hemail _ _ hsig, hlen _ _ hsig⟩

theorem synthUserRow_email (now : JsValue) (u : SynthUser) :
    (synthUserRow now u).get "email" = u.email := rfl

theorem foldl_userInsertStep_mono (now : JsValue) (users : List SynthUser) :
    ∀ (tbl : List Row) (n : Nat) (e : JsValue), keyPresent tbl "email" e = true →
      keyPresent (users.foldl (userInsertStep now) (tbl, n)).1 "email" e = true := by
  induction users with
  | nil => intro tbl n e h; exact h
  | cons u rest ih =>
    intro tbl n e h
    rw [List.foldl_cons]
    simp only [userInsertStep]
    by_cases hk : keyPresent tbl "email" u.email = true
    · rw [if_pos hk]; exact ih tbl (n + 1) e h
    · rw [if_neg hk]
      exact ih (tbl ++ [synthUserRow now u]) (n + 1) e (keyPresent_append _ _ _ _ h)

theorem foldl_userInsertStep_self (now : JsValue) (users : List SynthUser) :
    ∀ (tbl : List Row) (n : Nat), ∀ u ∈ users,
      keyPresent (users.foldl (userInsertStep now) (tbl, n)).1 "email" u.email = true := by
  induction users with
  | nil => intro tbl n u h; cases h
  | cons w rest ih =>
    intro tbl n u h
    rw [List.foldl_cons]
    simp only [userInsertStep]
    rcases List.mem_cons.mp h with h | h
    · subst h
      by_cases hk : keyPresent tbl "email" u.email = true
      · rw [if_pos hk]
        exact foldl_userInsertStep_mono now rest tbl (n + 1) u.email hk
      · rw [if_neg hk]
        apply foldl_userInsertStep_mono
        simp [keyPresent, List.any_append, synthUserRow_email]
    · by_cases hk : keyPresent tbl "email" w.email = true
      · rw [if_pos hk]; exact ih tbl (n + 1) u h
      · rw [if_neg hk]; exact ih _ (n + 1) u h

theorem foldl_userInsertStep_noop (now : JsValue) (users : List SynthUser) :
    ∀ (tbl : List Row) (n : Nat),
      (∀ u ∈ users, keyPresent tbl "email" u.email = true) →
      (users.foldl (userInsertStep now) (tbl, n)).1 = tbl := by
  induction users with
  | nil => intro tbl n _; rfl
  | cons u rest ih =>
    intro tbl n h
    rw [List.foldl_cons]
    simp only [userInsertStep]
    rw [if_pos (h u (List.mem_cons_self u rest))]
    exact ih tbl (n + 1) (fun w hw => h w (List.mem_cons_of_mem u hw))

theorem successField_of_ok {r : MigResult} {n : Nat} (h : r = .ok n) :
    (ResultEntry.mig r).successField = true := by
  rw [h]; rfl

set_option maxRecDepth 8192 in
/-- C3: running the full pipeline twice against the same unchanged
source — with fresh random draws, UUIDs and timestamps on the second
run — and a target already populated by the first run yields a target
database identical to the one after the first run (zero net new rows,
because every insert is conflict-skipping), and in both runs the
user-synthesis step and every table migration report `success: true`.
The hypotheses restrict rows to shapes the script itself can process:
truthy profile `user_id`s are strings (they are sliced for the
placeholder email and used as map keys) and report `UserEmail`s are not
objects (they are compared with `===`). -/
theorem claim3_idempotent
    (randAt1 randAt2 : Nat → Int) (uuid1 uuid2 : Nat → String) (now1 now2 : JsValue)
    (profiles auditRows rowsUP rowsUA rowsUS rowsAR rowsInc rowsRep : List Row) (db0 : DB)
    (hprof : ∀ p ∈ profiles, (Row.get p "user_id").truthy = true →
      (Row.get p "user_id").isStr = true)
    (hmail : ∀ r ∈ auditRows, (Row.get r "UserEmail").isStructured = false) :
    ∀ out1 out2 : PipelineOutcome,
      out1 = runPipeline false randAt1 uuid1 now1
        (mkStdSources profiles auditRows rowsUP rowsUA rowsUS rowsAR rowsInc rowsRep) db0 →
      out2 = runPipeline false randAt2 uuid2 now2
        (mkStdSources profiles auditRows rowsUP rowsUA rowsUS rowsAR rowsInc rowsRep) out1.db →
      out2.db = out1.db ∧
      (∀ p ∈ out1.results, p.1 ≠ "validation" → p.2.successField = true) ∧
      (∀ p ∈ out2.results, p.1 ≠ "validation" → p.2.successField = true) := by
  intro out1 out2 h1 h2
  subst h1
  subst h2
  obtain ⟨aRes, aMono, aCov⟩ :=
    migrateTable_std cfgUserProfiles keyStable_userProfiles randAt1 rowsUP db0.user_profiles
  obtain ⟨bRes, bMono, bCov⟩ :=
    migrateTable_std cfgUserActivities keyStable_userActivities randAt1 rowsUA db0.user_activities
  obtain ⟨cRes, cMono, cCov⟩ :=
    migrateTable_std cfgUserStats keyStable_userStats randAt1 rowsUS db0.user_stats
  obtain ⟨dRes, dMono, dCov⟩ :=
    migrateTable_std cfgAuditReports keyStable_auditReports randAt1 rowsAR db0.auditReports
  obtain ⟨eRes, eMono, eCov⟩ :=
    migrateTable_std cfgIncidents keyStable_incidents randAt1 rowsInc db0.incidents
  obtain ⟨fRes, fMono, fCov⟩ :=
    migrateTable_std cfgReports keyStable_reports randAt1 rowsRep db0.reports
  have aNoop := migrateTable_std_noop cfgUserProfiles keyStable_userProfiles randAt2 rowsUP _ aCov
  have bNoop := migrateTable_std_noop cfgUserActivities keyStable_userActivities randAt2 rowsUA _ bCov
  have cNoop := migrateTable_std_noop cfgUserStats keyStable_userStats randAt2 rowsUS _ cCov
  have dNoop := migrateTable_std_noop cfgAuditReports keyStable_auditReports randAt2 rowsAR _ dCov
  have eNoop := migrateTable_std_noop cfgIncidents keyStable_incidents randAt2 rowsInc _ eCov
  have fNoop := migrateTable_std_noop cfgReports keyStable_reports randAt2 rowsRep _ fCov
  obtain ⟨aRes2, -, -⟩ := migrateTable_std cfgUserProfiles keyStable_userProfiles randAt2 rowsUP
    (migrateTable false cfgUserProfiles randAt1 (stdSource rowsUP) db0.user_profiles).target
  obtain ⟨bRes2, -, -⟩ := migrateTable_std cfgUserActivities keyStable_userActivities randAt2 rowsUA
    (migrateTable false cfgUserActivities randAt1 (stdSource rowsUA) db0.user_activities).target
  obtain ⟨cRes2, -, -⟩ := migrateTable_std cfgUserStats keyStable_userStats randAt2 rowsUS
    (migrateTable false cfgUserStats randAt1 (stdSource rowsUS) db0.user_stats).target
  obtain ⟨dRes2, -, -⟩ := migrateTable_std cfgAuditReports keyStable_auditReports randAt2 rowsAR
    (migrateTable false cfgAuditReports randAt1 (stdSource rowsAR) db0.auditReports).target
  obtain ⟨eRes2, -, -⟩ := migrateTable_std cfgIncidents keyStable_incidents randAt2 rowsInc
    (migrateTable false cfgIncidents randAt1 (stdSource rowsInc) db0.incidents).target
  obtain ⟨fRes2, -, -⟩ := migrateTable_std cfgReports keyStable_reports randAt2 rowsRep
    (migrateTable false cfgReports randAt1 (stdSource rowsRep) db0.reports).target
  have hcreate1 : createUsersFromProfiles false uuid1 now1 (some profiles) (some auditRows)
      db0.users =
      ((insertUsers now1 db0.users (synthUsers uuid1 (some profiles) (some auditRows))).1,
       .ok (synthUsers uuid1 (some profiles) (some auditRows)).length,
       (insertUsers now1 db0.users (synthUsers uuid1 (some profiles) (some auditRows))).2) := rfl
  have hcreate2 : ∀ tbl : List Row,
      createUsersFromProfiles false uuid2 now2 (some profiles) (some auditRows) tbl =
      ((insertUsers now2 tbl (synthUsers uuid2 (some profiles) (some auditRows))).1,
       .ok (synthUsers uuid2 (some profiles) (some auditRows)).length,
       (insertUsers now2 tbl (synthUsers uuid2 (some profiles) (some auditRows))).2) :=
    fun _ => rfl
  obtain ⟨hemails, -⟩ := synthUsers_emails uuid2 uuid1 (some profiles) (some auditRows)
  have hU1self : ∀ u ∈ synthUsers uuid1 (some profiles) (some auditRows),
      keyPresent (insertUsers now1 db0.users
        (synthUsers uuid1 (some profiles) (some auditRows))).1 "email" u.email = true :=
    foldl_userInsertStep_self now1 _ db0.users 0
  have hU2pres : ∀ u ∈ synthUsers uuid2 (some profiles) (some auditRows),
      keyPresent (insertUsers now1 db0.users
        (synthUsers uuid1 (some profiles) (some auditRows))).1 "email" u.email = true := by
    intro u hu
    have hmem : u.email ∈ (synthUsers uuid2 (some profiles) (some auditRows)).map
        (fun u => u.email) := List.mem_map_of_mem _ hu
    rw [hemails] at hmem
    obtain ⟨u1, hu1mem, hu1e⟩ := List.mem_map.mp hmem
    rw [← hu1e]
    exact hU1self u1 hu1mem
  have hU2noop : (insertUsers now2 (insertUsers now1 db0.users
      (synthUsers uuid1 (some profiles) (some auditRows))).1
      (synthUsers uuid2 (some profiles) (some auditRows))).1 =
      (insertUsers now1 db0.users (synthUsers uuid1 (some profiles) (some auditRows))).1 :=
    foldl_userInsertStep_noop now2 _ _ 0 hU2pres
  simp only [runPipeline, mkStdSources, Bool.false_eq_true, ite_true, ite_false]
  refine ⟨?_, ?_, ?_⟩
  · simp only [DB.mk.injEq]
    refine ⟨?_, aNoop, bNoop, cNoop, dNoop, eNoop, fNoop⟩
    rw [hcreate1, hcreate2]
    exact hU2noop
  · intro p hp hname
    rcases List.mem_append.mp hp with hb | hv
    · simp only [List.mem_cons, List.not_mem_nil, or_false] at hb
      rcases hb with h | h | h | h | h | h | h <;> subst h
      · rw [hcreate1]; rfl
      · exact successField_of_ok aRes
      · exact successField_of_ok bRes
      · exact successField_of_ok cRes
      · exact successField_of_ok dRes
      · exact successField_of_ok eRes
      · exact successField_of_ok fRes
    · simp only [List.mem_singleton] at hv
      subst hv
      exact absurd rfl hname
  · intro p hp hname
    rcases List.mem_append.mp hp with hb | hv
    · simp only [List.mem_cons, List.not_mem_nil, or_false] at hb
      rcases hb with h | h | h | h | h | h | h <;> subst h
      · rw [hcreate1, hcreate2]; rfl
      · exact successField_of_ok aRes2
      · exact successField_of_ok bRes2
      · exact successField_of_ok cRes2
      · exact successField_of_ok dRes2
      · exact successField_of_ok eRes2
      · exact successField_of_ok fRes2
    · simp only [List.mem_singleton] at hv
      subst hv
      exact absurd rfl hname

/-- C3 witness: a concrete two-run scenario in which the second run
changes nothing and the first run's migration entries all succeed. -/
theorem claim3_idempotent_witness :
    (∀ p ∈ w3profiles, (Row.get p "user_id").truthy = true →
      (Row.get p "user_id").isStr = true) ∧
    w3run2.db = w3run1.db ∧
    (∀ p ∈ w3run1.results, p.1 ≠ "validation" → p.2.successField = true) :=
  ⟨by decide,
   (claim3_idempotent (fun _ => 1) (fun _ => 2) (fun _ => "uuid-1") (fun _ => "uuid-2")
     (JsValue.str "t1") (JsValue.str "t2") w3profiles w3reports
     [[("user_id", JsValue.str "u1")]] [] [] [[("Id", JsValue.str "r1")]] [] [] emptyDB
     (by decide) (by decide) w3run1 w3run2 rfl rfl).1,
   (claim3_idempotent (fun _ => 1) (fun _ => 2) (fun _ => "uuid-1") (fun _ => "uuid-2")
     (JsValue.str "t1") (JsValue.str "t2") w3profiles w3reports
     [[("user_id", JsValue.str "u1")]] [] [] [[("Id", JsValue.str "r1")]] [] [] emptyDB
     (by decide) (by decide) w3run1 w3run2 rfl rfl).2.1⟩
